import Mathlib

/-!
Shallow embedding of `src/Ch02Ex02.py` (Mastering Object-Oriented Python,
Chapter 2, Example 2): a `Card` class hierarchy (`Card`, `AceCard`,
`FaceCard`) and a `Suit` enumeration.

Python classes become a `CardClass` tag carried by a `Card` structure;
the dynamically dispatched `_points` method becomes `points`, a function
on the tag; `Card.__init__` becomes `mkCard`, which fails (returns
`none`) exactly when `int(self.rank)` would raise `ValueError`; the
dynamically typed `other` operand of `Card.__eq__` becomes `PyValue`,
with attribute access that can fail (Python's `AttributeError` becomes
`Except.error`).
-/

/-- The three classes of the hierarchy; `Card.__class__` in the source. -/
inductive CardClass
  | base
  | ace
  | face
deriving DecidableEq, Repr

/-- `insure`: class attribute, `True` on `AceCard`, `False` elsewhere. -/
def CardClass.insure : CardClass → Bool
  | .base => false
  | .ace => true
  | .face => false

/-- `self.__class__.__name__` of each class in the source. -/
def CardClass.name : CardClass → String
  | .base => "Card"
  | .ace => "AceCard"
  | .face => "FaceCard"

/-- Digit run of a Python integer literal body: after an initial digit,
single underscores may separate digits; accumulates the base-10 value.
Any other character, or a trailing or doubled underscore, fails. -/
def pyDigitsAux : Nat → List Char → Option Nat
  | acc, [] => some acc
  | acc, c :: cs =>
    if c = Char.ofNat 95 then
      match cs with
      | [] => none
      | c2 :: cs2 =>
        if c2.isDigit then pyDigitsAux (acc * 10 + (c2.toNat - 48)) cs2 else none
    else if c.isDigit then pyDigitsAux (acc * 10 + (c.toNat - 48)) cs
    else none

/-- A nonempty digit sequence in Python's `int` syntax (underscores
allowed between digits, not leading). -/
def pyDigits : List Char → Option Nat
  | [] => none
  | c :: cs => if c.isDigit then pyDigitsAux 0 (c :: cs) else none

/-- Python's `int(s)` on a `str`: surrounding whitespace stripped, an
optional sign, then a nonempty digit sequence; `none` models the
`ValueError` raised on any other input. -/
def pyInt (s : String) : Option Int :=
  let cs := ((s.toList.dropWhile Char.isWhitespace).reverse.dropWhile
      Char.isWhitespace).reverse
  match cs with
  | '-' :: rest => (pyDigits rest).map (fun n => -(n : Int))
  | '+' :: rest => (pyDigits rest).map (fun n => (n : Int))
  | rest => (pyDigits rest).map (fun n => (n : Int))

/-- A constructed card: `suit` and `rank` as stored by `Card.__init__`,
`hard` and `soft` as produced by `self._points()`, and the class tag. -/
structure Card where
  cls : CardClass
  suit : String
  rank : String
  hard : Int
  soft : Int
deriving DecidableEq, Repr

/-- `_points`, dispatched on the class: the base `Card` returns
`int(self.rank)` twice (failing on non-numeral rank), `AceCard` returns
`(1, 11)` and `FaceCard` returns `(10, 10)` regardless of the rank. -/
def points (cls : CardClass) (rank : String) : Option (Int × Int) :=
  match cls with
  | .base => (pyInt rank).map (fun n => (n, n))
  | .ace => some (1, 11)
  | .face => some (10, 10)

/-- `Card.__init__(rank, suit)`: stores `suit` and `rank` and sets
`self.hard, self.soft = self._points()`. A `ValueError` from `_points`
propagates: no object is produced. -/
def mkCard (cls : CardClass) (rank : String) (suit : String) : Option Card :=
  (points cls rank).map (fun p => ⟨cls, suit, rank, p.1, p.2⟩)

/-- A Python attribute value occurring in this program: a string
(`suit`, `rank`) or an integer (`hard`, `soft`). -/
inductive PyVal
  | vstr (s : String)
  | vint (n : Int)
deriving DecidableEq, Repr

/-- Python `==` between the attribute values of this program: strings
compare to strings, integers to integers, and mixed comparisons are
`False`. -/
def PyVal.eq : PyVal → PyVal → Bool
  | .vstr a, .vstr b => a == b
  | .vint a, .vint b => a == b
  | _, _ => false

/-- The dynamically typed `other` operand of `Card.__eq__`: a card, or a
non-card object such as the `int` and `str` values of the claims. -/
inductive PyValue
  | card (c : Card)
  | int (n : Int)
  | str (s : String)
deriving DecidableEq, Repr

/-- Attribute lookup on an operand: a card exposes `suit`, `rank`,
`hard` and `soft`; `int` and `str` objects have none of these
attributes, so lookup fails (`AttributeError`). -/
def PyValue.getAttr : PyValue → String → Option PyVal
  | .card c, "suit" => some (.vstr c.suit)
  | .card c, "rank" => some (.vstr c.rank)
  | .card c, "hard" => some (.vint c.hard)
  | .card c, "soft" => some (.vint c.soft)
  | .card _, _ => none
  | .int _, _ => none
  | .str _, _ => none

/-- `Card.__eq__(self, other)`: evaluates
`self.suit == other.suit and self.rank == other.rank and
self.hard == other.hard and self.soft == other.soft` with Python's
short-circuiting `and`; each attribute read on `other` can raise
`AttributeError` (the `cast` in the source is a static no-op). -/
def cardEq (self : Card) (other : PyValue) : Except String Bool :=
  match other.getAttr "suit" with
  | none => Except.error "AttributeError"
  | some v =>
    if PyVal.eq (PyVal.vstr self.suit) v then
      match other.getAttr "rank" with
      | none => Except.error "AttributeError"
      | some v =>
        if PyVal.eq (PyVal.vstr self.rank) v then
          match other.getAttr "hard" with
          | none => Except.error "AttributeError"
          | some v =>
            if PyVal.eq (PyVal.vint self.hard) v then
              match other.getAttr "soft" with
              | none => Except.error "AttributeError"
              | some v => Except.ok (PyVal.eq (PyVal.vint self.soft) v)
            else Except.ok false
        else Except.ok false
    else Except.ok false

/-- Python's `repr` of a `str`: the text between quotes, double quotes
chosen when the text holds a single quote (codepoint 39) and no double
quote (codepoint 34), single quotes otherwise. Escape sequences for
other characters are not needed by this program and are not modelled. -/
def pyStrRepr (s : String) : String :=
  let q := Char.ofNat 39
  let dq := Char.ofNat 34
  if s.toList.contains q && !s.toList.contains dq then
    String.mk (dq :: (s.toList ++ [dq]))
  else
    String.mk (q :: (s.toList ++ [q]))

/-- `Card.__repr__`:
`f"{self.__class__.__name__}(suit={self.suit!r}, rank={self.rank!r})"`. -/
def cardRepr (c : Card) : String :=
  c.cls.name ++ "(suit=" ++ pyStrRepr c.suit ++ ", rank=" ++ pyStrRepr c.rank ++ ")"

/-- `Card.__str__`: `f"{self.rank}{self.suit}"`. -/
def cardStr (c : Card) : String :=
  c.rank ++ c.suit

/-- The public operations invoked on a constructed card. -/
inductive CardOp
  | eqWith (other : PyValue)
  | reprOp
  | strOp

/-- What an operation returns: a boolean (`__eq__`), a string
(`__repr__`, `__str__`), or a raised `AttributeError`. -/
inductive OpResult
  | bool (b : Bool)
  | str (s : String)
  | raised (msg : String)
deriving DecidableEq, Repr

/-- Running one public operation on a card, returning its result
together with the card's state afterwards: each method only reads
`self`'s attributes, so the state it leaves is modelled explicitly. -/
def runOp (c : Card) : CardOp → OpResult × Card
  | .eqWith other =>
    match cardEq c other with
    | .ok b => (.bool b, c)
    | .error msg => (.raised msg, c)
  | .reprOp => (.str (cardRepr c), c)
  | .strOp => (.str (cardStr c), c)

/-- The `Suit` enumeration: four fixed members. -/
inductive Suit
  | Club
  | Diamond
  | Heart
  | Spade
deriving DecidableEq, Repr

/-- The display symbol bound to each `Suit` member. -/
def Suit.value : Suit → String
  | .Club => "♣"
  | .Diamond => "♦"
  | .Heart => "♥"
  | .Spade => "♠"

/-- Attempting `member.value = v` on an enum member, acting on the
table of member values: per the doctest `test_suit_value` in the source
(backed by the enum machinery's read-only `value` descriptor), the
assignment raises `AttributeError` and the table is left unchanged. -/
def Suit.setValue (vals : Suit → String) (_ : Suit) (_ : String) :
    Except String Unit × (Suit → String) :=
  (Except.error "AttributeError", vals)

/-! Theorems: the claims about the program. -/

/-- Evaluation of `__eq__` on a card operand: all four attribute reads
succeed, and the short-circuited `and` chain equals the conjunction of
the four attribute comparisons. -/
theorem cardEq_card (a b : Card) :
    cardEq a (PyValue.card b) =
      Except.ok (a.suit == b.suit && (a.rank == b.rank &&
        (a.hard == b.hard && a.soft == b.soft))) := by
  simp only [cardEq, PyValue.getAttr, PyVal.eq]
  by_cases h1 : a.suit == b.suit <;> by_cases h2 : a.rank == b.rank <;>
    by_cases h3 : a.hard == b.hard <;> simp_all

/-- C1: for every numeral rank string r in "2" through "10" and every
suit value s, constructing a base Card with rank r and suit s yields a
card whose hard and soft attributes both equal the integer parse of r. -/
theorem c1_numeral_card_points (r s : String)
    (h : r ∈ ["2", "3", "4", "5", "6", "7", "8", "9", "10"]) :
    ∃ n : Int, pyInt r = some n ∧
      mkCard CardClass.base r s = some ⟨CardClass.base, s, r, n, n⟩ := by
  fin_cases h <;> exact ⟨_, rfl, rfl⟩

/-- Witness for C1 at r = "10", s = "♠". -/
theorem c1_witness :
    ∃ n : Int, pyInt "10" = some n ∧
      mkCard CardClass.base "10" "♠" =
        some ⟨CardClass.base, "♠", "10", n, n⟩ :=
  c1_numeral_card_points "10" "♠" (by simp)

/-- C2: constructing an AceCard with any rank string r and suit s
succeeds and yields hard = 1 and soft = 11, whatever the rank text. -/
theorem c2_ace_points (r s : String) :
    mkCard CardClass.ace r s = some ⟨CardClass.ace, s, r, 1, 11⟩ :=
  rfl

/-- C3: constructing a FaceCard with any rank string r and suit s
succeeds and yields hard = 10 and soft = 10, whatever the rank text. -/
theorem c3_face_points (r s : String) :
    mkCard CardClass.face r s = some ⟨CardClass.face, s, r, 10, 10⟩ :=
  rfl

/-- C4: equality of two cards returns true iff suit, rank, hard and
soft all match; two cards constructed with identical suit, rank and
class are equal, and cards differing in suit or in rank are unequal. -/
theorem c4_eq_iff :
    (∀ a b : Card, cardEq a (PyValue.card b) = Except.ok true ↔
      (a.suit = b.suit ∧ a.rank = b.rank ∧ a.hard = b.hard ∧ a.soft = b.soft)) ∧
    (∀ cls r s a b, mkCard cls r s = some a → mkCard cls r s = some b →
      cardEq a (PyValue.card b) = Except.ok true) ∧
    (∀ a b : Card, a.suit ≠ b.suit ∨ a.rank ≠ b.rank →
      cardEq a (PyValue.card b) = Except.ok false) := by
  refine ⟨fun a b => ?_, fun cls r s a b ha hb => ?_, fun a b h => ?_⟩
  · simp [cardEq_card]
  · have hab : a = b := by rw [ha] at hb; exact Option.some.inj hb
    subst hab
    simp [cardEq_card]
  · rcases h with h | h <;> simp [cardEq_card, h]

/-- Witness for C4: two identically constructed cards compare equal. -/
theorem c4_witness :
    cardEq ⟨CardClass.base, "♠", "2", 2, 2⟩
      (PyValue.card ⟨CardClass.base, "♠", "2", 2, 2⟩) = Except.ok true :=
  c4_eq_iff.2.1 CardClass.base "2" "♠"
    ⟨CardClass.base, "♠", "2", 2, 2⟩ ⟨CardClass.base, "♠", "2", 2, 2⟩ rfl rfl

/-- C5: constructing a plain Card with a rank string that is not a
valid numeral propagates the integer-conversion failure: no card object
is produced. -/
theorem c5_invalid_rank (r s : String) (h : pyInt r = none) :
    mkCard CardClass.base r s = none := by
  simp [mkCard, points, h]

/-- Witness for C5 at the non-numeral rank "A". -/
theorem c5_witness :
    pyInt "A" = none ∧ mkCard CardClass.base "A" "♠" = none :=
  ⟨rfl, c5_invalid_rank "A" "♠" rfl⟩

/-- C6: each Suit member's associated value is its display symbol, and
every attempt to assign a member's value fails with an attribute-not-
settable error, leaving the table of member values unchanged. -/
theorem c6_suit_value_immutable :
    (Suit.Heart.value = "♥" ∧ Suit.Club.value = "♣" ∧
      Suit.Diamond.value = "♦" ∧ Suit.Spade.value = "♠") ∧
    (∀ (vals : Suit → String) (m : Suit) (v : String),
      Suit.setValue vals m v = (Except.error "AttributeError", vals)) :=
  ⟨⟨rfl, rfl, rfl, rfl⟩, fun _ _ _ => rfl⟩

/-- C7: the machine-oriented representation is the class name followed
by the suit and rank; rendering AceCard("A","♠"), Card("2","♠") and
FaceCard("Q","♠") this way yields the three documented strings. -/
theorem c7_repr :
    (∀ c : Card, cardRepr c =
      c.cls.name ++ "(suit=" ++ pyStrRepr c.suit ++ ", rank=" ++
        pyStrRepr c.rank ++ ")") ∧
    (mkCard CardClass.ace "A" "♠").map cardRepr =
      some "AceCard(suit='♠', rank='A')" ∧
    (mkCard CardClass.base "2" "♠").map cardRepr =
      some "Card(suit='♠', rank='2')" ∧
    (mkCard CardClass.face "Q" "♠").map cardRepr =
      some "FaceCard(suit='♠', rank='Q')" :=
  ⟨fun _ => rfl, by decide, by decide, by decide⟩

/-- C8: the human-oriented compact form concatenates rank and suit; in
particular Card("2","♠") renders as "2♠". -/
theorem c8_str :
    (∀ c : Card, cardStr c = c.rank ++ c.suit) ∧
    (mkCard CardClass.base "2" "♠").map cardStr = some "2♠" :=
  ⟨fun _ => rfl, by decide⟩

/-- C9: construction computes hard and soft from the rank via the
class's point rule (and stores suit, rank and class as given), and no
public operation — equality, repr, str — changes the card's state. -/
theorem c9_frame :
    (∀ cls r s c, mkCard cls r s = some c →
      c.cls = cls ∧ c.suit = s ∧ c.rank = r ∧
        points cls r = some (c.hard, c.soft)) ∧
    (∀ (c : Card) (op : CardOp), (runOp c op).2 = c) := by
  constructor
  · intro cls r s c h
    rw [mkCard, Option.map_eq_some'] at h
    obtain ⟨p, hp, hc⟩ := h
    subst hc
    exact ⟨rfl, rfl, rfl, by simpa using hp⟩
  · intro c op
    cases op with
    | eqWith other => cases h : cardEq c other <;> simp [runOp, h]
    | reprOp => rfl
    | strOp => rfl

/-- Witness for C9 at a concretely constructed card. -/
theorem c9_witness :
    (⟨CardClass.base, "♠", "2", 2, 2⟩ : Card).cls = CardClass.base ∧
    (⟨CardClass.base, "♠", "2", 2, 2⟩ : Card).suit = "♠" ∧
    (⟨CardClass.base, "♠", "2", 2, 2⟩ : Card).rank = "2" ∧
    points CardClass.base "2" =
      some ((⟨CardClass.base, "♠", "2", 2, 2⟩ : Card).hard,
        (⟨CardClass.base, "♠", "2", 2, 2⟩ : Card).soft) :=
  c9_frame.1 CardClass.base "2" "♠" ⟨CardClass.base, "♠", "2", 2, 2⟩ rfl

/-- C10: comparing a card against an operand lacking the suit attribute
(such as an int or a str) raises an attribute-access error rather than
returning false, because `__eq__` unconditionally reads the other
operand's attributes. -/
theorem c10_noncard_eq_raises (self : Card) (other : PyValue)
    (h : other.getAttr "suit" = none) :
    cardEq self other = Except.error "AttributeError" ∧
    cardEq self other ≠ Except.ok false := by
  have he : cardEq self other = Except.error "AttributeError" := by
    simp only [cardEq, h]
  exact ⟨he, by simp [he]⟩

/-- Witness for C10: comparing a card against the integer 2. -/
theorem c10_witness :
    cardEq ⟨CardClass.base, "♠", "2", 2, 2⟩ (PyValue.int 2) =
      Except.error "AttributeError" ∧
    cardEq ⟨CardClass.base, "♠", "2", 2, 2⟩ (PyValue.int 2) ≠
      Except.ok false :=
  c10_noncard_eq_raises ⟨CardClass.base, "♠", "2", 2, 2⟩ (PyValue.int 2) rfl
